import Mathlib

/-!
Verification of the dialog_translator core against its specification.

Python strings are embedded as `List Char`; machine-level details that the
verified properties do not observe (GUI layout, audio devices, JSON wire
encodings) are abstracted, while every branch of the embedded functions
mirrors the corresponding branch of the Python source.  Network traffic is
made observable by threading an outcome value for the single HTTP request a
function may issue and by counting issued requests in the result.
-/

namespace DialogTranslator

/-! ## Python string primitives

`pyLower` restricts Python's `str.lower` to the code points the language
detector inspects: ASCII letters, Latin-1 accented letters (with `Ÿ → ÿ` and
`ẞ → ß`), and the Russian Cyrillic range.  All characters outside these
ranges are left unchanged, as the detector only ever searches for characters
inside them. -/
def pyLower (c : Char) : Char :=
  let n := c.toNat
  if 65 ≤ n ∧ n ≤ 90 then Char.ofNat (n + 32)
  else if 0xC0 ≤ n ∧ n ≤ 0xDE ∧ n ≠ 0xD7 then Char.ofNat (n + 32)
  else if n = 0x178 then Char.ofNat 0xFF
  else if n = 0x1E9E then Char.ofNat 0xDF
  else if 0x410 ≤ n ∧ n ≤ 0x42F then Char.ofNat (n + 32)
  else if n = 0x401 then Char.ofNat 0x451
  else c

/-- Python whitespace test for `str.strip` (ASCII whitespace; the
credentials and texts the source strips are ASCII-delimited). -/
def isPySpace (c : Char) : Bool :=
  c = ' ' ∨ c = '\t' ∨ c = '\n' ∨ c = '\r' ∨ c = Char.ofNat 11 ∨ c = Char.ofNat 12

/-- Python `str.strip()`: drop whitespace from both ends. -/
def pyStrip (l : List Char) : List Char :=
  ((l.dropWhile isPySpace).reverse.dropWhile isPySpace).reverse

/-- Python slice `l[-k:]` (note `l[-0:]` is the whole list). -/
def pySliceLast {M : Type} (k : Nat) (l : List M) : List M :=
  if k = 0 then l else l.drop (l.length - k)

/-! ## LanguageDetector
(`translation_service.py`, `detect_language_from_text`, lines 73-110; an
identical copy lives in `main_window.py` lines 1326-1355). -/

/-- The Russian alphabet probed by rule 1 of the detector. -/
def cyrillicChars : List Char := "абвгдеёжзийклмнопрстуфхцчшщъыьэюя".toList

/-- The fixed English stop-word list of rule 2. -/
def commonEnglishWords : List (List Char) :=
  ["the", "and", "you", "that", "was", "for", "are", "with", "this", "have"].map
    String.toList

/-- Accented Spanish characters of rule 3. -/
def spanishChars : List Char := "áéíóúñ".toList

/-- Accented French characters of rule 4. -/
def frenchChars : List Char := "àâäçéèêëîïôöùûüÿ".toList

/-- German-specific characters of rule 5. -/
def germanChars : List Char := "äöüß".toList

/-- Python `any(c in text for c in chars)`. -/
def hasAnyChar (chars text : List Char) : Bool :=
  chars.any fun c => text.contains c

/-- Python substring containment `needle in hay`. -/
def isSubstringOf (needle : List Char) : List Char → Bool
  | [] => needle.isEmpty
  | c :: rest => needle.isPrefixOf (c :: rest) || isSubstringOf needle rest

/-- Python `any(word in text for word in words)` (substring containment). -/
def hasAnyWord (words : List (List Char)) (text : List Char) : Bool :=
  words.any fun w => isSubstringOf w text

/-- `TranslationService.detect_language_from_text`: lower-case the text, then
first match wins among the five rules; `none` when no rule fires.  The
source's blanket `except` clause is unreachable for these pure operations,
so the embedding is a total function. -/
def detect_language_from_text (text : List Char) : Option (List Char) :=
  let textLower := text.map pyLower
  if hasAnyChar cyrillicChars textLower then some "ru".toList
  else if hasAnyWord commonEnglishWords textLower then some "en".toList
  else if hasAnyChar spanishChars textLower then some "es".toList
  else if hasAnyChar frenchChars textLower then some "fr".toList
  else if hasAnyChar germanChars textLower then some "de".toList
  else none

/-- The spec's presentation of the detector: an ordered rule table evaluated
first-match-wins over the lower-cased text (spec section 4.1). -/
def detectRuleTable : List ((List Char → Bool) × List Char) :=
  [(hasAnyChar cyrillicChars, "ru".toList),
   (hasAnyWord commonEnglishWords, "en".toList),
   (hasAnyChar spanishChars, "es".toList),
   (hasAnyChar frenchChars, "fr".toList),
   (hasAnyChar germanChars, "de".toList)]

/-- First-match evaluation of an ordered rule table. -/
def firstMatch : List ((List Char → Bool) × List Char) → List Char → Option (List Char)
  | [], _ => none
  | (p, code) :: rest, t => if p t then some code else firstMatch rest t

/-! ## TranslationClient
(`translation_service.py`, `translate`, lines 18-71; an identical copy is
`translate_with_google_api` in `main_window.py` lines 1401-1444).

The single HTTP request the function may issue is abstracted by an
`HttpOutcome` argument; the second component of the result counts issued
requests, making "no network call" provable. -/

/-- Outcome of the one Google-Translate HTTP request: a timeout
(`requests.exceptions.Timeout`), a network error
(`requests.exceptions.RequestException`), any other raised exception (for
example a JSON-decode failure), or a response carrying a status code and the
parsed fragment array `data[0]` (each inner list is one item, whose head is
the translated fragment; an empty inner list models a falsy item). -/
inductive HttpOutcome : Type
  | timeout : HttpOutcome
  | netError : HttpOutcome
  | otherError : HttpOutcome
  | response (status : Nat) (fragments : List (List String)) : HttpOutcome
deriving DecidableEq

/-- The three bracketed placeholder strings `translate` embeds in its result
on failure (timeout, network error, other error / non-200 status). -/
def translationPlaceholders : List String :=
  ["[Таймаут перевода]", "[Ошибка сети]", "[Ошибка перевода]"]

/-- `TranslationService.translate`: identity short-circuit when source and
target coincide (no request issued), otherwise one request whose outcome is
mapped exactly as the source maps it.  On HTTP 200 the item heads are joined
with single spaces, falling back to the original text when no fragment
survives the truthiness filters. -/
def translate (outcome : HttpOutcome) (text source target : String) : String × Nat :=
  if source = target then (text, 0)
  else
    match outcome with
    | .timeout => ("[Таймаут перевода]", 1)
    | .netError => ("[Ошибка сети]", 1)
    | .otherError => ("[Ошибка перевода]", 1)
    | .response status fragments =>
      if status = 200 then
        let translatedParts := fragments.filterMap List.head?
        (if translatedParts.isEmpty then text else String.intercalate " " translatedParts, 1)
      else ("[Ошибка перевода]", 1)

/-- An outcome on which the request path of `translate` fails: a raised
exception or a non-200 status. -/
def isFailureOutcome : HttpOutcome → Bool
  | .timeout => true
  | .netError => true
  | .otherError => true
  | .response status _ => status ≠ 200

/-! ## SpeakerAttributor
(`main_window.py`, `process_recognized_text`, lines 1364-1374). -/

/-- The two conversational roles. -/
inductive Speaker : Type
  | speaker1 : Speaker
  | speaker2 : Speaker
deriving DecidableEq

/-- The speaker-attribution rule of `process_recognized_text`: exact slot
matches first; otherwise the source compares the whole detected code against
the first two characters of `lang1` (Python `lang1_trans[:2]`). -/
def process_recognized_text_attribution (detected lang1 lang2 : List Char) :
    Speaker × List Char :=
  if detected = lang1 then (Speaker.speaker1, lang2)
  else if detected = lang2 then (Speaker.speaker2, lang1)
  else
    let speaker := if detected = lang1.take 2 then Speaker.speaker1 else Speaker.speaker2
    (speaker, if speaker = Speaker.speaker1 then lang2 else lang1)

/-- The spec's wording of the fallback branch: compare the first two
characters of the detected code against the first two characters of
`lang1`. -/
def attributionSpec (detected lang1 lang2 : List Char) : Speaker × List Char :=
  if detected = lang1 then (Speaker.speaker1, lang2)
  else if detected = lang2 then (Speaker.speaker2, lang1)
  else
    let speaker :=
      if detected.take 2 = lang1.take 2 then Speaker.speaker1 else Speaker.speaker2
    (speaker, if speaker = Speaker.speaker1 then lang2 else lang1)

/-! ## RecognitionClient
(`main_window.py`, `recognize_audio`, lines 1269-1324; the service copy in
`speech_service.py` lines 94-161 is branch-for-branch identical and returns
the tuple instead of calling `process_recognized_text`).

Recognition calls on the audio buffer are abstracted by `Option (List Char)`
arguments: `none` models the provider raising `UnknownValueError` (no speech
matched), `some t` models it returning text `t`.  `RequestError` propagates
out of the source function unchanged and is handled by the capture loop, so
it does not appear in this value-level embedding. -/

/-- Result of one recognition pass: recognized text with detected language
and fixed confidence, or the `NoSpeechDetected` failure
(`sr.UnknownValueError`). -/
inductive RecResult : Type
  | noSpeech : RecResult
  | ok (text detected : List Char) (confidence : ℚ) : RecResult
deriving DecidableEq

/-- Python truthiness of the `text` variable (`None` or a string). -/
def truthyText : Option (List Char) → Bool
  | some t => !t.isEmpty
  | none => false

/-- The sequential per-language fallback: try `lang1`'s locale, then
`lang2`'s locale; the first provider success wins and fixes the detected
language to that slot's code. -/
def recognitionFallback (fb1 fb2 : Option (List Char)) (lang1 lang2 : List Char) :
    Option (List Char × List Char) :=
  match fb1 with
  | some t => some (t, lang1)
  | none =>
    match fb2 with
    | some t => some (t, lang2)
    | none => none

/-- The final `if text and detected_lang:` check of the source: both must be
truthy or the function raises `NoSpeechDetected`. -/
def recognizeFinal : Option (List Char) → Option (List Char) → RecResult
  | some t, some d =>
    if !t.isEmpty && !d.isEmpty then RecResult.ok t d (0.8 : ℚ) else RecResult.noSpeech
  | _, _ => RecResult.noSpeech

/-- `recognize_audio`: auto-detect first (running the language detector on
the returned text, defaulting to `lang1`'s code when it yields `none`), then
the per-language fallback chain when auto-detect produced no truthy text. -/
def recognize_audio (auto fb1 fb2 : Option (List Char)) (lang1 lang2 : List Char) :
    RecResult :=
  let autoDetected : Option (List Char) :=
    match auto with
    | some t =>
      if !t.isEmpty then some ((detect_language_from_text t).getD lang1) else none
    | none => none
  if truthyText auto then recognizeFinal auto autoDetected
  else
    match recognitionFallback fb1 fb2 lang1 lang2 with
    | some (t, d) => recognizeFinal (some t) (some d)
    | none => recognizeFinal auto autoDetected

/-! ## CaptureLoop
(`main_window.py`, `recording_worker`, lines 1175-1256).

The loop body is embedded as a step function over per-iteration outcomes.
An iteration outcome records where the body's control flow went:

* `captureFailed` — `recognizer.listen` raised; the inner
  `except Exception` handler (lines 1208-1211) sleeps 0.5 s and `continue`s,
  skipping both the counter reset and the pause check.  (This handler also
  catches `sr.WaitTimeoutError`, so the outer timeout handler at line 1226
  is unreachable.)
* `recognized` — listen succeeded (counter reset, line 1214) and
  `recognize_audio` returned normally.
* `noSpeech` — listen succeeded (counter reset, line 1214), then
  `recognize_audio` raised `sr.UnknownValueError`; the handler at line 1230
  increments the counter.
* `requestFailed` — listen succeeded (counter reset, line 1214), then
  `recognize_audio` raised `sr.RequestError`; the handler at line 1233
  increments the counter and sleeps 1 s.

After the handlers, the body checks
`consecutive_errors >= max_consecutive_errors` (threshold 5, lines
1243-1247): on reaching it the loop sleeps 2 s (the recovery pause) and
resets the counter to 0.  `pauses` records the duration of each recovery
pause taken. -/

/-- Where control flow went in one iteration of `recording_worker`. -/
inductive IterOutcome : Type
  | captureFailed : IterOutcome
  | recognized : IterOutcome
  | noSpeech : IterOutcome
  | requestFailed : IterOutcome
deriving DecidableEq

/-- Loop state observed by the backoff claims: the consecutive-error counter
and the list of recovery-pause durations taken so far (time units =
seconds). -/
structure LoopState : Type where
  consecutiveErrors : Nat
  pauses : List Nat
deriving DecidableEq

/-- One iteration of the `recording_worker` body.  Note the order the source
fixes: on a successful `listen` the counter is reset to 0 at line 1214
*before* `recognize_audio` runs, so a recognition failure increments from 0,
not from the previous iteration's value. -/
def recording_worker_step (s : LoopState) (o : IterOutcome) : LoopState :=
  match o with
  | .captureFailed => s
  | .recognized =>
    let afterListen := 0
    if 5 ≤ afterListen then { consecutiveErrors := 0, pauses := s.pauses ++ [2] }
    else { s with consecutiveErrors := afterListen }
  | .noSpeech | .requestFailed =>
    let afterListen := 0
    let afterHandler := afterListen + 1
    if 5 ≤ afterHandler then { consecutiveErrors := 0, pauses := s.pauses ++ [2] }
    else { s with consecutiveErrors := afterHandler }

/-- Run of the capture loop over a list of iteration outcomes. -/
def recording_worker_run (s : LoopState) (outcomes : List IterOutcome) : LoopState :=
  outcomes.foldl recording_worker_step s

/-! ## DialogueHistory
(`main_window.py`, `display_message`, lines 1529-1548).

Only the history mutation is embedded; the chat-widget call, speaker
statistics and window-title update do not touch the stored history.  The
trim at lines 1544-1545 fires only when the length exceeds
`max_messages * 2` and then keeps the Python slice
`dialogue_history[-max_messages:]`. -/

/-- The `dialogue_history` mutation performed by one `display_message`
call: append, then trim to the most recent `maxMessages` entries when the
length exceeds twice `maxMessages`. -/
def display_message_hist {M : Type} (maxMessages : Nat) (hist : List M) (m : M) :
    List M :=
  let h := hist ++ [m]
  if maxMessages * 2 < h.length then pySliceLast maxMessages h else h

/-- Feed a list of messages one at a time through `display_message`,
starting from an empty history. -/
def run_display {M : Type} (maxMessages : Nat) (msgs : List M) : List M :=
  msgs.foldl (display_message_hist maxMessages) []

/-! ## SpeechSynthesisProvider
(`tts_providers/elevenlabs_provider.py`, `tts_providers/google_cloud_provider.py`,
`tts_service.py`).

A `speak` invocation together with the worker it spawns is embedded as one
sequential function: the worker thread runs to completion with no
interleaving the claims observe.  Observable effects are collected in a
`TtsRun`: the `message_callback` events issued (with each error event
labelled by the canonical kind of the branch that produced it), the number
of HTTP requests issued, whether the completion callback was invoked, and
whether a worker thread was spawned at all. -/

/-- Canonical classification of a synthesis error report, one label per
reporting branch of the three workers. -/
inductive TtsErrorKind : Type
  | keyNotSet : TtsErrorKind
  | keyBadFormat : TtsErrorKind
  | authError : TtsErrorKind
  | quotaExceeded : TtsErrorKind
  | permissionError : TtsErrorKind
  | validationError : TtsErrorKind
  | rateLimited : TtsErrorKind
  | serviceError : TtsErrorKind
  | timeoutError : TtsErrorKind
  | networkError : TtsErrorKind
  | emptyResponse : TtsErrorKind
  | workerError : TtsErrorKind
deriving DecidableEq

/-- One `message_callback` event: a status line, a success info line, or an
error report of the given kind. -/
inductive TtsEvent : Type
  | statusReport : TtsEvent
  | infoSuccess : TtsEvent
  | errorReport (kind : TtsErrorKind) : TtsEvent
deriving DecidableEq

/-- Outcome of the one synthesis HTTP request: timeout, network error, or a
response with a status code and a flag for a non-empty body (audio bytes for
ElevenLabs, a non-empty `audioContent` field for Google Cloud). -/
inductive TtsNet : Type
  | timeout : TtsNet
  | netError : TtsNet
  | response (status : Nat) (bodyNonempty : Bool) : TtsNet
deriving DecidableEq

/-- Observable effects of one `speak` invocation. -/
structure TtsRun : Type where
  messages : List TtsEvent
  requests : Nat
  callbackInvoked : Bool
  workerSpawned : Bool
deriving DecidableEq

/-- The run in which nothing observable happened. -/
def ttsNoop : TtsRun :=
  { messages := [], requests := 0, callbackInvoked := false, workerSpawned := false }

/-- The error kinds reported during a run, in order. -/
def errKinds (r : TtsRun) : List TtsErrorKind :=
  r.messages.filterMap fun e =>
    match e with
    | .errorReport k => some k
    | _ => none

/-- The vendor-required ElevenLabs credential prefix. -/
def skChars : List Char := "sk_".toList

/-- `ElevenLabsProvider._tts_worker`, request part (lines 96-150): the
request and its status dispatch.  200 with a body → temp-file write,
completion callback and success info; 200 with an empty body →
empty-response report; 401 → auth report; 402 → quota report; any other
status → the generic `ElevenLabs ошибка: <status>` service report.  A
raised timeout or network error is caught only by the blanket
`except Exception` handler (lines 148-150), which reports a generic worker
error.  The status event issued at worker start (lines 80-81) is included
here so that either part of the worker yields the events of a full run. -/
def elevenLabsDispatch (net : TtsNet) : TtsRun :=
  match net with
  | .timeout =>
    { messages := [.statusReport, .errorReport .workerError], requests := 1,
      callbackInvoked := false, workerSpawned := false }
  | .netError =>
    { messages := [.statusReport, .errorReport .workerError], requests := 1,
      callbackInvoked := false, workerSpawned := false }
  | .response status bodyNonempty =>
    if status = 200 then
      if bodyNonempty then
        { messages := [.statusReport, .infoSuccess], requests := 1,
          callbackInvoked := true, workerSpawned := false }
      else
        { messages := [.statusReport, .errorReport .emptyResponse], requests := 1,
          callbackInvoked := false, workerSpawned := false }
    else if status = 401 then
      { messages := [.statusReport, .errorReport .authError], requests := 1,
        callbackInvoked := false, workerSpawned := false }
    else if status = 402 then
      { messages := [.statusReport, .errorReport .quotaExceeded], requests := 1,
        callbackInvoked := false, workerSpawned := false }
    else
      { messages := [.statusReport, .errorReport .serviceError], requests := 1,
        callbackInvoked := false, workerSpawned := false }

/-- `ElevenLabsProvider._tts_worker`, credential gate (lines 83-94): the
stripped-credential checks run before any request is issued — empty →
key-not-set report, missing `sk_` prefix → bad-format report; only then does
the request/dispatch part run. -/
def elevenLabsWorker (apiKey text : List Char) (net : TtsNet) : TtsRun :=
  let key := pyStrip apiKey
  if key.isEmpty then
    { messages := [.statusReport, .errorReport .keyNotSet], requests := 0,
      callbackInvoked := false, workerSpawned := false }
  else if !(skChars.isPrefixOf key) then
    { messages := [.statusReport, .errorReport .keyBadFormat], requests := 0,
      callbackInvoked := false, workerSpawned := false }
  else
    elevenLabsDispatch net

/-- `ElevenLabsProvider.speak` (lines 43-75): empty or whitespace-only text
returns immediately with nothing observable; an empty (falsy) credential
reports key-not-set without spawning a worker; otherwise the worker thread
is spawned. -/
def elevenLabsSpeak (apiKey text : List Char) (net : TtsNet) : TtsRun :=
  if (pyStrip text).isEmpty then ttsNoop
  else if apiKey.isEmpty then
    { messages := [.errorReport .keyNotSet], requests := 0,
      callbackInvoked := false, workerSpawned := false }
  else
    let w := elevenLabsWorker apiKey text net
    { w with workerSpawned := true }

/-- `GoogleCloudProvider._tts_worker` (lines 44-137): status event, then the
request and its status dispatch in source order: 200 with a non-empty
`audioContent` → decode, temp-file write, completion callback and success
info; 200 with an empty field → empty-response report; 403 → the
access/permission report (both of its message sub-branches report the same
kind); 401 → auth report; any other status → the generic
`Google Cloud ошибка <status>` service report.  A raised timeout or network
error is caught only by the blanket `except Exception` handler (lines
134-137), which reports a generic worker error.  No credential-format check
exists in this worker. -/
def googleCloudWorker (apiKey text : List Char) (net : TtsNet) : TtsRun :=
  match net with
  | .timeout =>
    { messages := [.statusReport, .errorReport .workerError], requests := 1,
      callbackInvoked := false, workerSpawned := false }
  | .netError =>
    { messages := [.statusReport, .errorReport .workerError], requests := 1,
      callbackInvoked := false, workerSpawned := false }
  | .response status bodyNonempty =>
    if status = 200 then
      if bodyNonempty then
        { messages := [.statusReport, .infoSuccess], requests := 1,
          callbackInvoked := true, workerSpawned := false }
      else
        { messages := [.statusReport, .errorReport .emptyResponse], requests := 1,
          callbackInvoked := false, workerSpawned := false }
    else if status = 403 then
      { messages := [.statusReport, .errorReport .permissionError], requests := 1,
        callbackInvoked := false, workerSpawned := false }
    else if status = 401 then
      { messages := [.statusReport, .errorReport .authError], requests := 1,
        callbackInvoked := false, workerSpawned := false }
    else
      { messages := [.statusReport, .errorReport .serviceError], requests := 1,
        callbackInvoked := false, workerSpawned := false }

/-- `GoogleCloudProvider.speak` (lines 22-42): empty or whitespace-only text
returns immediately with nothing observable; an empty credential reports
key-not-set without spawning a worker; otherwise the worker thread is
spawned. -/
def googleCloudSpeak (apiKey text : List Char) (net : TtsNet) : TtsRun :=
  if (pyStrip text).isEmpty then ttsNoop
  else if apiKey.isEmpty then
    { messages := [.errorReport .keyNotSet], requests := 0,
      callbackInvoked := false, workerSpawned := false }
  else
    let w := googleCloudWorker apiKey text net
    { w with workerSpawned := true }

/-- `TTSService._tts_worker`, request part (`tts_service.py`, lines
136-256): the request sits inside its own `try` whose handlers report a
dedicated timeout error (lines 147-152) and a dedicated network error
(lines 154-159); then the status dispatch: 200 with a body → temp-file
write, completion callback and success info; 200 with an empty body →
empty-response report; 401 → auth report; 402 → quota report; 422 →
validation report; 429 → rate-limit report; any other status → the generic
`ElevenLabs ошибка: ...` service report.  The status event issued at worker
start (lines 84-85) is included here so that either part of the worker
yields the events of a full run. -/
def ttsServiceDispatch (net : TtsNet) : TtsRun :=
  match net with
  | .timeout =>
    { messages := [.statusReport, .errorReport .timeoutError], requests := 1,
      callbackInvoked := false, workerSpawned := false }
  | .netError =>
    { messages := [.statusReport, .errorReport .networkError], requests := 1,
      callbackInvoked := false, workerSpawned := false }
  | .response status bodyNonempty =>
    if status = 200 then
      if bodyNonempty then
        { messages := [.statusReport, .infoSuccess], requests := 1,
          callbackInvoked := true, workerSpawned := false }
      else
        { messages := [.statusReport, .errorReport .emptyResponse], requests := 1,
          callbackInvoked := false, workerSpawned := false }
    else if status = 401 then
      { messages := [.statusReport, .errorReport .authError], requests := 1,
        callbackInvoked := false, workerSpawned := false }
    else if status = 402 then
      { messages := [.statusReport, .errorReport .quotaExceeded], requests := 1,
        callbackInvoked := false, workerSpawned := false }
    else if status = 422 then
      { messages := [.statusReport, .errorReport .validationError], requests := 1,
        callbackInvoked := false, workerSpawned := false }
    else if status = 429 then
      { messages := [.statusReport, .errorReport .rateLimited], requests := 1,
        callbackInvoked := false, workerSpawned := false }
    else
      { messages := [.statusReport, .errorReport .serviceError], requests := 1,
        callbackInvoked := false, workerSpawned := false }

/-- `TTSService._tts_worker`, credential gate (`tts_service.py`, lines
95-110): the stripped-credential checks as in the ElevenLabs provider,
before any request; only then does the request/dispatch part run. -/
def ttsServiceWorker (apiKey text : List Char) (net : TtsNet) : TtsRun :=
  let key := pyStrip apiKey
  if key.isEmpty then
    { messages := [.statusReport, .errorReport .keyNotSet], requests := 0,
      callbackInvoked := false, workerSpawned := false }
  else if !(skChars.isPrefixOf key) then
    { messages := [.statusReport, .errorReport .keyBadFormat], requests := 0,
      callbackInvoked := false, workerSpawned := false }
  else
    ttsServiceDispatch net

/-- `TTSService.speak` (`tts_service.py`, lines 54-79): same gate as the
ElevenLabs provider — empty or whitespace-only text is a silent no-op, an
empty credential reports key-not-set without spawning a worker, otherwise
the worker thread is spawned. -/
def ttsServiceSpeak (apiKey text : List Char) (net : TtsNet) : TtsRun :=
  if (pyStrip text).isEmpty then ttsNoop
  else if apiKey.isEmpty then
    { messages := [.errorReport .keyNotSet], requests := 0,
      callbackInvoked := false, workerSpawned := false }
  else
    let w := ttsServiceWorker apiKey text net
    { w with workerSpawned := true }


/-! ## Helper lemmas -/

theorem isEmpty_false_of_ne_nil {α : Type} {l : List α} (h : l ≠ []) :
    l.isEmpty = false := by
  cases l with
  | nil => exact absurd rfl h
  | cons a t => rfl

/-- Every language code the detector can return is non-empty. -/
theorem detect_language_ne_nil (t d : List Char)
    (h : detect_language_from_text t = some d) : d ≠ [] := by
  simp only [detect_language_from_text] at h
  split_ifs at h <;> cases h <;> decide

/-- As long as the running length stays within the `2 × max` soft cap, the
`display_message` history mutation is plain appending. -/
theorem displayFold_append {M : Type} (maxM : Nat) (l : List M) :
    ∀ acc : List M, acc.length + l.length ≤ maxM * 2 →
      l.foldl (display_message_hist maxM) acc = acc ++ l := by
  induction l with
  | nil => intro acc _; simp
  | cons m rest ih =>
    intro acc h
    rw [List.length_cons] at h
    have hlt : ¬ (maxM * 2 < acc.length + 1) := by omega
    have step : display_message_hist maxM acc m = acc ++ [m] := by
      simp [display_message_hist, hlt]
    rw [List.foldl_cons, step,
      ih (acc ++ [m]) (by rw [List.length_append, List.length_singleton]; omega)]
    simp

/-! ## Claim theorems -/

/-- C1 (code evaluation at the claim's inputs): on the embedded
`recording_worker` step function, five consecutive NoSpeechDetected
iterations starting from a zero counter leave the consecutive-error counter
at 1 with NO recovery pause taken — not, as the claim states, one 2-unit
pause and a reset to 0 — because the source resets the counter after every
successful listen (line 1214), before recognition runs, which makes the
threshold-5 recovery branch (lines 1243-1247) unreachable from recognition
failures.  Four failures followed by a success do leave the counter at 0
with no pause, as the claim states. -/
theorem recording_worker_backoff_evaluation :
    recording_worker_run ⟨0, []⟩ (List.replicate 5 IterOutcome.noSpeech)
      = ⟨1, []⟩
    ∧ recording_worker_run ⟨0, []⟩
        (List.replicate 4 IterOutcome.noSpeech ++ [IterOutcome.recognized])
      = ⟨0, []⟩ := by
  decide

/-- C2 counterexample: with the maximum configured to 5, feeding 10 = 5+5
messages through the `display_message` history path leaves all 10 stored,
not 5 — the trim at lines 1544-1545 fires only when the length exceeds
2×max. -/
theorem run_display_overfull_counterexample :
    (run_display 5 (List.range 10)).length ≠ 5
    ∧ run_display 5 (List.range 10) = List.range 10 := by
  decide

/-- C2 amended: inserting N+5 messages with max configured to N (N ≥ 5)
leaves all N+5 messages stored, in their original insertion order — the
history is trimmed (to the most recent N) only when an append pushes the
length beyond the 2×N soft cap, which N+5 messages never reach. -/
theorem run_display_no_eviction_below_soft_cap (M : Type) (N : Nat)
    (msgs : List M) (h5 : 5 ≤ N) (hlen : msgs.length = N + 5) :
    run_display N msgs = msgs := by
  have h := displayFold_append N msgs [] (by simp [hlen]; omega)
  simpa [run_display] using h

/-- C2 witness: the amended statement at N = 5 with the ten messages
0..9. -/
theorem run_display_no_eviction_witness :
    run_display 5 (List.range 10) = List.range 10 :=
  run_display_no_eviction_below_soft_cap Nat 5 (List.range 10) (by decide)
    (by decide)

/-- C3: the language detector equals the five-rule first-match algorithm
(rule table evaluated in order over the lower-cased text: Cyrillic → `ru`,
English stop-word substring → `en`, Spanish accents → `es`, French accents
→ `fr`, German characters → `de`, otherwise none), and the three example
inputs evaluate as the claim states. -/
theorem detect_language_matches_rule_table :
    (∀ t, detect_language_from_text t = firstMatch detectRuleTable (t.map pyLower))
    ∧ detect_language_from_text "привет, как дела".toList = some "ru".toList
    ∧ detect_language_from_text "the cat and the dog ran".toList = some "en".toList
    ∧ detect_language_from_text "1234".toList = none :=
  ⟨fun _ => rfl, by decide, by decide, by decide⟩

/-- C4: for every request outcome, text and language code, `translate`
with source equal to target returns the text unchanged and issues zero
network requests. -/
theorem translate_identity_short_circuit :
    ∀ (outcome : HttpOutcome) (text lang : String),
      translate outcome text lang lang = (text, 0) := by
  intro o text lang
  simp [translate]

/-- C5: for distinct source and target, on a timeout, a network error, any
other raised exception or any non-200 status, `translate` returns normally
(the embedding is a total function) with one of the three short bracketed
placeholder strings as the translated text. -/
theorem translate_failure_placeholder :
    ∀ (outcome : HttpOutcome) (text source target : String),
      source ≠ target → isFailureOutcome outcome = true →
      (translate outcome text source target).2 = 1
      ∧ (translate outcome text source target).1 ∈ translationPlaceholders := by
  intro o text s t hst hfail
  cases o with
  | timeout => simp [translate, hst, translationPlaceholders]
  | netError => simp [translate, hst, translationPlaceholders]
  | otherError => simp [translate, hst, translationPlaceholders]
  | response status frags =>
    have h200 : status ≠ 200 := by simpa [isFailureOutcome] using hfail
    simp [translate, hst, h200, translationPlaceholders]

/-- C5 witness: a simulated HTTP 500 backend for `translate` of the text `hi` from `en` to
`ru` yields a bracketed placeholder. -/
theorem translate_failure_placeholder_witness :
    (translate (.response 500 []) "hi" "en" "ru").2 = 1
    ∧ (translate (.response 500 []) "hi" "en" "ru").1 ∈ translationPlaceholders :=
  translate_failure_placeholder (.response 500 []) "hi" "en" "ru" (by decide)
    (by decide)

/-- C6: for every two-character detected code, the speaker attribution of
`process_recognized_text` equals the spec's rule (exact slot matches first,
then the first-two-characters comparison against `lang1`), and the two
example inputs evaluate to (Speaker 2, `ru`) as the claim states.  The
function is total and deterministic by construction. -/
theorem attribution_matches_spec :
    (∀ d l1 l2 : List Char, d.length = 2 →
      process_recognized_text_attribution d l1 l2 = attributionSpec d l1 l2)
    ∧ process_recognized_text_attribution "en".toList "ru".toList "en".toList
        = (Speaker.speaker2, "ru".toList)
    ∧ process_recognized_text_attribution "it".toList "ru".toList "en".toList
        = (Speaker.speaker2, "ru".toList) := by
  refine ⟨?_, by decide, by decide⟩
  intro d l1 l2 hd
  have htake : d.take 2 = d := List.take_of_length_le (by omega)
  simp [process_recognized_text_attribution, attributionSpec, htake]

/-- C6 witness: the equality instantiated at the detected code `it` with
the pair (`ru`, `en`). -/
theorem attribution_matches_spec_witness :
    process_recognized_text_attribution "it".toList "ru".toList "en".toList
      = attributionSpec "it".toList "ru".toList "en".toList :=
  attribution_matches_spec.1 "it".toList "ru".toList "en".toList (by decide)

/-- C7: whenever auto-detect recognition returns non-empty text and
`lang1`'s code is non-empty, `recognize_audio` returns that text with the
detector's language (defaulting to `lang1`'s code when the detector yields
none) and confidence exactly 0.8; and when the auto-detect attempt yields no
truthy text and both per-language fallbacks (lang1's locale then lang2's
locale) fail, it fails with NoSpeechDetected. -/
theorem recognize_audio_auto_path_and_noSpeech :
    ∀ (auto fb1 fb2 : Option (List Char)) (lang1 lang2 : List Char),
      lang1 ≠ [] →
      ((∀ t, auto = some t → t ≠ [] →
          recognize_audio auto fb1 fb2 lang1 lang2
            = RecResult.ok t ((detect_language_from_text t).getD lang1) (0.8 : ℚ))
       ∧ ((auto = none ∨ auto = some []) → fb1 = none → fb2 = none →
          recognize_audio auto fb1 fb2 lang1 lang2 = RecResult.noSpeech)) := by
  intro auto fb1 fb2 lang1 lang2 h1
  constructor
  · intro t hauto ht
    subst hauto
    have hte : t.isEmpty = false := isEmpty_false_of_ne_nil ht
    have hd : ((detect_language_from_text t).getD lang1) ≠ [] := by
      cases hdet : detect_language_from_text t with
      | none => simpa using h1
      | some d => simpa using detect_language_ne_nil t d hdet
    have hde : ((detect_language_from_text t).getD lang1).isEmpty = false :=
      isEmpty_false_of_ne_nil hd
    simp [recognize_audio, truthyText, hte, recognizeFinal, hde]
  · intro hauto hfb1 hfb2
    subst hfb1
    subst hfb2
    rcases hauto with h | h <;> subst h <;>
      simp [recognize_audio, truthyText, recognitionFallback, recognizeFinal]

/-- C7 witness: auto-detected text `hello` (on which the detector yields
none) with pair (`ru`, `en`) returns (`hello`, `ru`, 0.8); with every
recognition attempt failing the result is NoSpeechDetected. -/
theorem recognize_audio_witness :
    recognize_audio (some "hello".toList) none none "ru".toList "en".toList
      = RecResult.ok "hello".toList "ru".toList (0.8 : ℚ)
    ∧ recognize_audio none none none "ru".toList "en".toList
      = RecResult.noSpeech := by
  have h := recognize_audio_auto_path_and_noSpeech (some "hello".toList) none none
    "ru".toList "en".toList (by decide)
  have h0 := recognize_audio_auto_path_and_noSpeech none none none
    "ru".toList "en".toList (by decide)
  refine ⟨?_, h0.2 (Or.inl rfl) rfl rfl⟩
  have h1 := h.1 "hello".toList rfl (by decide)
  rw [show detect_language_from_text "hello".toList = none from by decide] at h1
  simpa using h1

/-- C8 counterexample: the non-empty space-padded credential ` sk_a` does not start
with `sk_` (it starts with a space), yet `speak` makes one network request
and reports no error — the source strips the credential before the prefix
check, so the claim's quantification over credentials fails. -/
theorem elevenlabs_padded_key_counterexample :
    " sk_a".toList ≠ []
    ∧ skChars.isPrefixOf " sk_a".toList = false
    ∧ (elevenLabsSpeak " sk_a".toList "hi".toList (.response 200 true)).requests = 1
    ∧ errKinds (elevenLabsSpeak " sk_a".toList "hi".toList (.response 200 true)) = [] := by
  decide

/-- C8 amended: for every credential that is non-empty and whose
whitespace-STRIPPED form does not start with `sk_`, the ElevenLabs `speak`
reports a credential error (key-not-set when the stripped form is empty,
bad-format otherwise) through the message callback, invokes no completion
callback, and makes zero network calls: the check precedes any HTTP
request. -/
theorem elevenlabs_bad_key_no_request :
    ∀ (apiKey text : List Char) (net : TtsNet),
      pyStrip text ≠ [] → apiKey ≠ [] →
      skChars.isPrefixOf (pyStrip apiKey) = false →
      (elevenLabsSpeak apiKey text net).requests = 0
      ∧ (elevenLabsSpeak apiKey text net).callbackInvoked = false
      ∧ ∃ k, TtsEvent.errorReport k ∈ (elevenLabsSpeak apiKey text net).messages
          ∧ (k = TtsErrorKind.keyNotSet ∨ k = TtsErrorKind.keyBadFormat) := by
  intro apiKey text net htext hkey hpre
  have hte : (pyStrip text).isEmpty = false := isEmpty_false_of_ne_nil htext
  have hke : apiKey.isEmpty = false := isEmpty_false_of_ne_nil hkey
  by_cases hk : (pyStrip apiKey).isEmpty
  · refine ⟨?_, ?_, TtsErrorKind.keyNotSet, ?_, Or.inl rfl⟩ <;>
      simp [elevenLabsSpeak, elevenLabsWorker, hte, hke, hk]
  · refine ⟨?_, ?_, TtsErrorKind.keyBadFormat, ?_, Or.inr rfl⟩ <;>
      simp [elevenLabsSpeak, elevenLabsWorker, hte, hke, hk, hpre]

/-- C8 witness: the credential `abc` with text `hi` reports a credential
error and makes zero network calls even against a healthy backend. -/
theorem elevenlabs_bad_key_witness :
    (elevenLabsSpeak "abc".toList "hi".toList (.response 200 true)).requests = 0
    ∧ (elevenLabsSpeak "abc".toList "hi".toList (.response 200 true)).callbackInvoked
        = false
    ∧ ∃ k, TtsEvent.errorReport k
          ∈ (elevenLabsSpeak "abc".toList "hi".toList (.response 200 true)).messages
        ∧ (k = TtsErrorKind.keyNotSet ∨ k = TtsErrorKind.keyBadFormat) :=
  elevenlabs_bad_key_no_request "abc".toList "hi".toList (.response 200 true)
    (by decide) (by decide) (by decide)

/-- C9 counterexample: the ElevenLabs provider classifies an HTTP 429
response as the generic service error, not as RateLimited as the claim
requires for every provider variant — its dispatch has branches only for
200, 401 and 402. -/
theorem elevenlabs_429_counterexample :
    errKinds (elevenLabsWorker "sk_key".toList "hi".toList (.response 429 true))
      = [TtsErrorKind.serviceError]
    ∧ TtsErrorKind.serviceError ≠ TtsErrorKind.rateLimited := by
  decide

/-- C9 amended: the per-variant status classification the code actually
implements.  With a well-formed credential each worker runs its dispatch;
the ElevenLabs provider maps 401→AuthError, 402→QuotaExceeded and every
other non-200 status (including 403, 422, 429) →ServiceError; the Google
Cloud provider maps 403→PermissionError, 401→AuthError and every other
non-200 status (including 402, 422, 429) →ServiceError; the standalone
TTSService maps 401→AuthError, 402→QuotaExceeded, 422→ValidationError,
429→RateLimited and other non-200 →ServiceError.  A 200 response with an
empty body is EmptyResponseError in all three.  A connection timeout or
network error is a dedicated TimeoutError/NetworkError only in TTSService;
the two providers catch it in their blanket handler as a generic worker
error. -/
theorem tts_status_classification :
    (∀ (apiKey text : List Char) (net : TtsNet),
      (pyStrip apiKey).isEmpty = false → skChars.isPrefixOf (pyStrip apiKey) = true →
      elevenLabsWorker apiKey text net = elevenLabsDispatch net
      ∧ ttsServiceWorker apiKey text net = ttsServiceDispatch net)
    ∧ (∀ (status : Nat) (b : Bool), status ≠ 200 →
      errKinds (elevenLabsDispatch (.response status b))
        = [if status = 401 then TtsErrorKind.authError
           else if status = 402 then TtsErrorKind.quotaExceeded
           else TtsErrorKind.serviceError])
    ∧ (∀ (apiKey text : List Char) (status : Nat) (b : Bool), status ≠ 200 →
      errKinds (googleCloudWorker apiKey text (.response status b))
        = [if status = 403 then TtsErrorKind.permissionError
           else if status = 401 then TtsErrorKind.authError
           else TtsErrorKind.serviceError])
    ∧ (∀ (status : Nat) (b : Bool), status ≠ 200 →
      errKinds (ttsServiceDispatch (.response status b))
        = [if status = 401 then TtsErrorKind.authError
           else if status = 402 then TtsErrorKind.quotaExceeded
           else if status = 422 then TtsErrorKind.validationError
           else if status = 429 then TtsErrorKind.rateLimited
           else TtsErrorKind.serviceError])
    ∧ errKinds (elevenLabsDispatch (.response 200 false)) = [TtsErrorKind.emptyResponse]
    ∧ (∀ apiKey text, errKinds (googleCloudWorker apiKey text (.response 200 false))
        = [TtsErrorKind.emptyResponse])
    ∧ errKinds (ttsServiceDispatch (.response 200 false)) = [TtsErrorKind.emptyResponse]
    ∧ errKinds (elevenLabsDispatch .timeout) = [TtsErrorKind.workerError]
    ∧ errKinds (elevenLabsDispatch .netError) = [TtsErrorKind.workerError]
    ∧ (∀ apiKey text, errKinds (googleCloudWorker apiKey text .timeout)
        = [TtsErrorKind.workerError])
    ∧ (∀ apiKey text, errKinds (googleCloudWorker apiKey text .netError)
        = [TtsErrorKind.workerError])
    ∧ errKinds (ttsServiceDispatch .timeout) = [TtsErrorKind.timeoutError]
    ∧ errKinds (ttsServiceDispatch .netError) = [TtsErrorKind.networkError] := by
  refine ⟨?_, ?_, ?_, ?_, by decide, fun _ _ => rfl, by decide, by decide, by decide,
    fun _ _ => rfl, fun _ _ => rfl, by decide, by decide⟩
  · intro apiKey text net hk hpre
    constructor <;> simp [elevenLabsWorker, ttsServiceWorker, hk, hpre]
  · intro status b hs
    simp only [elevenLabsDispatch]
    rw [if_neg hs]
    split_ifs <;> rfl
  · intro apiKey text status b hs
    simp only [googleCloudWorker]
    rw [if_neg hs]
    split_ifs <;> rfl
  · intro status b hs
    simp only [ttsServiceDispatch]
    rw [if_neg hs]
    split_ifs <;> rfl

/-- C9 witness: status 402 on the ElevenLabs dispatch is QuotaExceeded and
status 429 on the TTSService dispatch is RateLimited. -/
theorem tts_status_classification_witness :
    errKinds (elevenLabsDispatch (.response 402 true)) = [TtsErrorKind.quotaExceeded]
    ∧ errKinds (ttsServiceDispatch (.response 429 true)) = [TtsErrorKind.rateLimited] := by
  constructor
  · have h := tts_status_classification.2.1 402 true (by decide)
    simpa using h
  · have h := tts_status_classification.2.2.2.1 429 true (by decide)
    simpa using h

/-- C10: for each of the three synthesis provider variants, `speak` with
text that is empty or whitespace-only is a complete no-op: no worker
spawned, no network request, no completion callback, and no status or error
message reported. -/
theorem speak_blank_text_noop :
    ∀ (apiKey text : List Char) (net : TtsNet), pyStrip text = [] →
      elevenLabsSpeak apiKey text net = ttsNoop
      ∧ googleCloudSpeak apiKey text net = ttsNoop
      ∧ ttsServiceSpeak apiKey text net = ttsNoop := by
  intro apiKey text net h
  have h2 : (pyStrip text).isEmpty = true := by rw [h]; rfl
  refine ⟨?_, ?_, ?_⟩ <;>
    simp [elevenLabsSpeak, googleCloudSpeak, ttsServiceSpeak, h2]

/-- C10 witness: a whitespace-only two-space text with a well-formed
credential and a healthy backend produces the no-op run on all three
variants. -/
theorem speak_blank_text_witness :
    elevenLabsSpeak "sk_key".toList "  ".toList (.response 200 true) = ttsNoop
    ∧ googleCloudSpeak "sk_key".toList "  ".toList (.response 200 true) = ttsNoop
    ∧ ttsServiceSpeak "sk_key".toList "  ".toList (.response 200 true) = ttsNoop :=
  speak_blank_text_noop "sk_key".toList "  ".toList (.response 200 true) (by decide)

end DialogTranslator
